import Mathlib

/-!
Shallow embedding of the `cdk-serverless-lamp` construct library
(`src/index.ts`).  Each CDK construct is modelled as a pure function from
its props object to a record describing the resources it declares; opaque
CDK handles (`IVpc`, `ISecret`, `IFunction`, `IDatabaseProxy`) are modelled
as records carrying only the data the library actually reads from them.
Optional TypeScript fields become `Option`; the JavaScript `??` operator
becomes `Option.getD`, and `!x` on an optional boolean is modelled by
`tsNot` (in JavaScript, `!undefined = true`).
-/

/-- Opaque reference to an `IVpc`. -/
structure IVpc where
  vpcId : String
  deriving DecidableEq

/-- Opaque reference to a `secretsmanager.ISecret` (only ever passed around,
never read by this library). -/
structure ISecret where
  secretId : String
  deriving DecidableEq

/-- Opaque reference to a `lambda.IFunction` supplied by the caller. -/
structure IFunction where
  functionId : String
  deriving DecidableEq

/-- Opaque reference to an `rds.IDatabaseProxy`; the library reads its
`dbProxyArn`. -/
structure IDatabaseProxy where
  dbProxyArn : String
  deriving DecidableEq

/-- `DatabaseConfig` interface (src/index.ts lines 12-32). -/
structure DatabaseConfig where
  writerEndpoint : String
  readerEndpoint : Option String := none
  masterUserName : Option String := none
  masterUserPasswordSecret : Option ISecret := none
  deriving DecidableEq

/-- `ServerlessApiProps` interface (src/index.ts lines 37-76). -/
structure ServerlessApiProps where
  handler : Option IFunction := none
  lambdaCodePath : Option String := none
  brefLayerVersion : String
  vpc : Option IVpc := none
  databaseConfig : Option DatabaseConfig := none
  rdsProxy : Option IDatabaseProxy := none
  deriving DecidableEq

/-- Environment block set on the Lambda function the construct creates
(src/index.ts lines 100-105). -/
structure LambdaEnvironment where
  APP_STORAGE : String
  DB_WRITER : String
  DB_READER : String
  DB_USER : String
  deriving DecidableEq

/-- The `new lambda.Function(this, 'handler', ...)` resource
(src/index.ts lines 93-108). -/
structure CreatedFunction where
  runtime : String
  handlerEntry : String
  layerArns : List String
  codePath : String
  environment : LambdaEnvironment
  timeoutSeconds : Nat
  vpc : IVpc
  deriving DecidableEq

/-- An `iam.PolicyStatement`. -/
structure PolicyStatement where
  actions : List String
  resources : List String
  deriving DecidableEq

/-- The `new Vpc(this, 'Vpc', { maxAzs: 3, natGateways: 1 })` resource
created when no VPC is supplied (src/index.ts line 91). -/
structure VpcResource where
  maxAzs : Nat
  natGateways : Nat
  deriving DecidableEq

/-- The `apigateway.HttpApi` resource with its default Lambda proxy
integration (src/index.ts lines 118-122). -/
structure HttpApiResource where
  integrationHandler : IFunction
  deriving DecidableEq

/-- Resource description produced by the `ServerlessApi` constructor. -/
structure ServerlessApiResult where
  vpc : IVpc
  newVpc : Option VpcResource
  createdFunction : Option CreatedFunction
  handler : IFunction
  handlerRolePolicy : List PolicyStatement
  endpoint : HttpApiResource
  outputsEndpointURL : Bool
  deriving DecidableEq

def DEFAULT_LAMBDA_ASSET_PATH : String := "__dirname/../composer/laravel58-bref"

def DEFAULT_DB_MASTER_USER : String := "admin"

/-- `ServerlessApi` constructor (src/index.ts lines 85-124) as a pure
function from props to the declared resources.  The function resource is
only created when no custom handler is supplied (`props.handler ?? new
lambda.Function(...)` evaluates its right operand lazily). -/
def serverlessApi (props : ServerlessApiProps) : ServerlessApiResult :=
  let vpc : IVpc := props.vpc.getD { vpcId := "Vpc" }
  let newVpc : Option VpcResource :=
    match props.vpc with
    | some _ => none
    | none => some { maxAzs := 3, natGateways := 1 }
  let createdFunction : Option CreatedFunction :=
    match props.handler with
    | some _ => none
    | none =>
      some { runtime := "PROVIDED"
             handlerEntry := "public/index.php"
             layerArns := [props.brefLayerVersion]
             codePath := props.lambdaCodePath.getD DEFAULT_LAMBDA_ASSET_PATH
             environment :=
               { APP_STORAGE := "/tmp"
                 DB_WRITER :=
                   match props.databaseConfig with
                   | none => ""
                   | some dbc => dbc.writerEndpoint
                 DB_READER :=
                   match props.databaseConfig with
                   | none => ""
                   | some dbc =>
                     match dbc.readerEndpoint with
                     | some r => r
                     | none => dbc.writerEndpoint
                 DB_USER :=
                   match props.databaseConfig with
                   | none => DEFAULT_DB_MASTER_USER
                   | some dbc => dbc.masterUserName.getD DEFAULT_DB_MASTER_USER }
             timeoutSeconds := 120
             vpc := vpc }
  let handler : IFunction := props.handler.getD { functionId := "handler" }
  let handlerRolePolicy : List PolicyStatement :=
    match props.rdsProxy with
    | some proxy => [{ actions := ["rds-db:connect"], resources := [proxy.dbProxyArn] }]
    | none => []
  { vpc := vpc
    newVpc := newVpc
    createdFunction := createdFunction
    handler := handler
    handlerRolePolicy := handlerRolePolicy
    endpoint := { integrationHandler := handler }
    outputsEndpointURL := true }

/-- `ServerlessLaravelProps` (src/index.ts lines 130-136): extends
`ServerlessApiProps` with `laravelPath`. -/
structure ServerlessLaravelProps where
  handler : Option IFunction := none
  lambdaCodePath : Option String := none
  brefLayerVersion : String
  vpc : Option IVpc := none
  databaseConfig : Option DatabaseConfig := none
  rdsProxy : Option IDatabaseProxy := none
  laravelPath : String
  deriving DecidableEq

/-- `ServerlessLaravel` constructor (src/index.ts lines 141-152): calls the
`ServerlessApi` constructor with `lambdaCodePath: props.laravelPath` and the
remaining options forwarded field by field, exactly as the `super(...)` call
in the source does. -/
def serverlessLaravel (props : ServerlessLaravelProps) : ServerlessApiResult :=
  serverlessApi
    { lambdaCodePath := some props.laravelPath
      brefLayerVersion := props.brefLayerVersion
      handler := props.handler
      vpc := props.vpc
      databaseConfig := props.databaseConfig
      rdsProxy := props.rdsProxy }

/-- `InstanceType` handle (the library stores it or the literal
`t3.medium`). -/
structure InstanceType where
  name : String
  deriving DecidableEq

/-- `DatabaseProps` interface (src/index.ts lines 154-200).  `engine` and
`rdsProxyOptions` are declared in the source but never read by the
constructor; they are kept here as opaque options for faithfulness. -/
structure DatabaseProps where
  engine : Option String := none
  masterUserName : Option String := none
  vpc : IVpc
  instanceType : Option InstanceType := none
  rdsProxy : Option Bool := none
  rdsProxyOptions : Option String := none
  singleInstanceOnly : Option Bool := none
  deriving DecidableEq

/-- JavaScript `!x` on a `boolean | undefined` value: `!undefined = true`. -/
def tsNot : Option Bool → Bool
  | some b => !b
  | none => true

/-- The `generateSecretString` configuration of the master secret
(src/index.ts lines 218-226). -/
structure GenerateSecretStringConfig where
  secretStringTemplateUsername : String
  passwordLength : Nat
  excludePunctuation : Bool
  includeSpace : Bool
  generateStringKey : String
  deriving DecidableEq

/-- The `secretsmanager.Secret` resource (src/index.ts lines 216-227). -/
structure SecretResource where
  secretName : String
  generate : GenerateSecretStringConfig
  secretArn : String
  deriving DecidableEq

/-- `secret.secretValueFromJson(key)`: an opaque resolution token for a JSON
key of the secret. -/
def secretValueFromJson (s : SecretResource) (key : String) : String :=
  "resolve:" ++ s.secretName ++ ":" ++ key

/-- The `SecurityGroup` with its self-referential TCP 3306 allow rule
(src/index.ts lines 231-234). -/
structure SecurityGroupResource where
  vpc : IVpc
  allowInternallyTcpPorts : List Nat
  deriving DecidableEq

/-- The `rds.DatabaseInstance` resource of the single-instance branch
(src/index.ts lines 237-245).  `instanceType` is passed through as-is:
the source applies no default in this branch. -/
structure DBInstanceResource where
  engine : String
  masterUsername : String
  masterUserPassword : String
  vpc : IVpc
  securityGroups : List SecurityGroupResource
  instanceType : Option InstanceType
  deletionProtection : Bool
  deriving DecidableEq

/-- The `rds.DatabaseCluster` resource of the cluster branch
(src/index.ts lines 247-262). -/
structure DBClusterResource where
  engineVersion : String
  instanceVpc : IVpc
  instanceType : InstanceType
  securityGroups : List SecurityGroupResource
  masterUsername : String
  masterUserPassword : String
  instances : Nat
  removalPolicy : String
  deriving DecidableEq

/-- Which database object the proxy was attached to via `addProxy`. -/
inductive ProxyTarget where
  | cluster
  | dbInst
  deriving DecidableEq

/-- A member of the construct's private `_runBefore` list.  The only thing
the source ever pushes is the cluster's child `CfnDBInstance`
(src/index.ts lines 265-268). -/
inductive Dependable where
  | clusterMemberInstance
  deriving DecidableEq

/-- The `iam.Role` created for the RDS proxy (src/index.ts lines 274-286). -/
structure IamRole where
  assumedByServicePrincipal : String
  policy : List PolicyStatement
  deriving DecidableEq

/-- The `rds.DatabaseProxy` resource created by `addProxy`
(src/index.ts lines 288-306), including the creation-order dependencies
added by `rdsProxy?.node.addDependency(...this._runBefore)`. -/
structure DatabaseProxyResource where
  target : ProxyTarget
  vpc : IVpc
  secrets : List String
  iamAuth : Bool
  dbProxyName : String
  securityGroups : List SecurityGroupResource
  role : IamRole
  dependencies : List Dependable
  deriving DecidableEq

/-- Resource description produced by the `DatabaseCluster` constructor. -/
structure DatabaseClusterResult where
  masterUser : String
  masterPassword : SecretResource
  dbConnectionGroup : SecurityGroupResource
  dbInstance : Option DBInstanceResource
  dbCluster : Option DBClusterResource
  runBefore : List Dependable
  rdsProxyRole : Option IamRole
  rdsProxy : Option DatabaseProxyResource
  deriving DecidableEq

/-- `DatabaseCluster` constructor (src/index.ts lines 210-308) as a pure
function.  `stackName` stands for `cdk.Stack.of(this).stackName`.  The
proxy-enablement test mirrors the source expression
`!props.rdsProxy === false` literally, and the two sequential
`if (this.dbCluster) / if (this.dbInstance)` assignments of `this.rdsProxy`
are mirrored by `afterCluster` / `afterInstance`. -/
def databaseCluster (stackName : String) (props : DatabaseProps) :
    DatabaseClusterResult :=
  let masterUser : String := props.masterUserName.getD "admin"
  let masterUserSecret : SecretResource :=
    { secretName := stackName ++ "-DbMasterSecret"
      generate :=
        { secretStringTemplateUsername := masterUser
          passwordLength := 12
          excludePunctuation := true
          includeSpace := false
          generateStringKey := "password" }
      secretArn := "arn:secretsmanager:" ++ stackName ++ "-DbMasterSecret" }
  let dbConnectionGroup : SecurityGroupResource :=
    { vpc := props.vpc, allowInternallyTcpPorts := [3306] }
  let single : Bool := props.singleInstanceOnly == some true
  let dbInstance : Option DBInstanceResource :=
    if single then
      some { engine := "mysql"
             masterUsername := secretValueFromJson masterUserSecret "username"
             masterUserPassword := secretValueFromJson masterUserSecret "password"
             vpc := props.vpc
             securityGroups := [dbConnectionGroup]
             instanceType := props.instanceType
             deletionProtection := false }
    else none
  let dbCluster : Option DBClusterResource :=
    if single then none
    else
      some { engineVersion := "aurora-mysql-VER_2_08_1"
             instanceVpc := props.vpc
             instanceType := props.instanceType.getD { name := "t3.medium" }
             securityGroups := [dbConnectionGroup]
             masterUsername := secretValueFromJson masterUserSecret "username"
             masterUserPassword := secretValueFromJson masterUserSecret "password"
             instances := 1
             removalPolicy := "DESTROY" }
  let runBefore : List Dependable :=
    if single then [] else [Dependable.clusterMemberInstance]
  let enabled : Bool := tsNot props.rdsProxy == false
  let proxyRole : IamRole :=
    { assumedByServicePrincipal := "rds.amazonaws.com"
      policy :=
        [{ actions :=
             [ "secretsmanager:GetResourcePolicy"
             , "secretsmanager:GetSecretValue"
             , "secretsmanager:DescribeSecret"
             , "secretsmanager:ListSecretVersionIds" ]
           resources := [masterUserSecret.secretArn] }] }
  let rdsProxyRole : Option IamRole := if enabled then some proxyRole else none
  let rdsProxy : Option DatabaseProxyResource :=
    if enabled then
      let proxyFor : ProxyTarget → DatabaseProxyResource := fun t =>
        { target := t
          vpc := props.vpc
          secrets := [masterUserSecret.secretName]
          iamAuth := true
          dbProxyName := stackName ++ "-RDSProxy"
          securityGroups := [dbConnectionGroup]
          role := proxyRole
          dependencies := [] }
      let afterCluster : Option DatabaseProxyResource :=
        if dbCluster.isSome then some (proxyFor ProxyTarget.cluster) else none
      let afterInstance : Option DatabaseProxyResource :=
        if dbInstance.isSome then some (proxyFor ProxyTarget.dbInst) else afterCluster
      afterInstance.map (fun p => { p with dependencies := runBefore })
    else none
  { masterUser := masterUser
    masterPassword := masterUserSecret
    dbConnectionGroup := dbConnectionGroup
    dbInstance := dbInstance
    dbCluster := dbCluster
    runBefore := runBefore
    rdsProxyRole := rdsProxyRole
    rdsProxy := rdsProxy }

/-- Observer: the target of the proxy, when one was created. -/
def proxyTarget (r : DatabaseClusterResult) : Option ProxyTarget :=
  r.rdsProxy.map DatabaseProxyResource.target

/-- Observer: the declared creation-order dependencies of the proxy, when
one was created. -/
def proxyDependencies (r : DatabaseClusterResult) : Option (List Dependable) :=
  r.rdsProxy.map DatabaseProxyResource.dependencies

/-- Observer: whether IAM authentication is enabled on the proxy, when one
was created. -/
def proxyIamAuth (r : DatabaseClusterResult) : Option Bool :=
  r.rdsProxy.map DatabaseProxyResource.iamAuth

/-- Observer: the `instanceType` of the standalone DB instance, when one was
created. -/
def dbInstanceSizing (r : DatabaseClusterResult) : Option (Option InstanceType) :=
  r.dbInstance.map DBInstanceResource.instanceType

/-- Observer: the `instanceType` of the cluster members, when a cluster was
created. -/
def dbClusterSizing (r : DatabaseClusterResult) : Option InstanceType :=
  r.dbCluster.map DBClusterResource.instanceType

/-- Observer: `DB_WRITER` of the created function, when one was created. -/
def functionDBWriter (r : ServerlessApiResult) : Option String :=
  r.createdFunction.map (fun f => f.environment.DB_WRITER)

/-- Observer: `DB_READER` of the created function, when one was created. -/
def functionDBReader (r : ServerlessApiResult) : Option String :=
  r.createdFunction.map (fun f => f.environment.DB_READER)

/-- Observer: `DB_USER` of the created function, when one was created. -/
def functionDBUser (r : ServerlessApiResult) : Option String :=
  r.createdFunction.map (fun f => f.environment.DB_USER)

/-! ## Fixtures for concrete evaluations -/

def vpc0 : IVpc := { vpcId := "vpc-1" }

def pc2 : DatabaseProps := { vpc := vpc0, rdsProxy := some true }

def pc3single : DatabaseProps :=
  { vpc := vpc0, rdsProxy := some true, singleInstanceOnly := some true }

def pc3cluster : DatabaseProps := { vpc := vpc0, rdsProxy := some true }

def pc4 : DatabaseProps := { vpc := vpc0 }

def dbc5 : DatabaseConfig := { writerEndpoint := "writer.example.com" }

def pc5a : ServerlessApiProps :=
  { brefLayerVersion := "arn:bref", databaseConfig := some dbc5 }

def pc5b : ServerlessApiProps := { brefLayerVersion := "arn:bref" }

def pc6 : DatabaseProps := { vpc := vpc0, rdsProxy := some true }

def pc8single : DatabaseProps := { vpc := vpc0, singleInstanceOnly := some true }

def pc8cluster : DatabaseProps := { vpc := vpc0 }

def f9 : IFunction := { functionId := "custom" }

def proxy9 : IDatabaseProxy := { dbProxyArn := "arn:aws:rds:proxy-abc" }

def p9a : ServerlessApiProps :=
  { handler := some f9, brefLayerVersion := "layerA"
    lambdaCodePath := some "pathA", rdsProxy := some proxy9 }

def p9b : ServerlessApiProps :=
  { handler := some f9, brefLayerVersion := "layerB"
    databaseConfig := some { writerEndpoint := "w" }, rdsProxy := some proxy9 }

/-! ## Claim theorems -/

/-- C1: the claim says an omitted `rdsProxy` flag (or any value other than
literal `false`) creates exactly one proxy.  The source condition
`!props.rdsProxy === false` is satisfied only by the literal `true`: with the
flag omitted, `!undefined` is `true` and the comparison with `false` fails,
so no proxy is created — contradicting the prop's own `@default true`
documentation and the `enable the RDS proxy by default` comment.  This
theorem evaluates the constructor at the failing input (flag omitted), at
`false`, and at `true`. -/
theorem c1_proxy_requires_literal_true :
    (databaseCluster "stack" { vpc := vpc0 }).rdsProxy = none ∧
    (databaseCluster "stack" { vpc := vpc0, rdsProxy := some false }).rdsProxy = none ∧
    proxyIamAuth (databaseCluster "stack" { vpc := vpc0, rdsProxy := some true }) =
      some true :=
  ⟨rfl, rfl, rfl⟩

/-- C2: exactly one of standalone instance / cluster is created —
`singleInstanceOnly === true` yields the instance and no cluster, anything
else yields the cluster and no instance — and the proxy, when created, is
attached to whichever of the two exists. -/
theorem c2_exactly_one_topology (stackName : String) (props : DatabaseProps) :
    ((databaseCluster stackName props).dbInstance.isSome
       = (props.singleInstanceOnly == some true)) ∧
    ((databaseCluster stackName props).dbCluster.isSome
       = !(props.singleInstanceOnly == some true)) ∧
    ((databaseCluster stackName props).rdsProxy.isSome = true →
      proxyTarget (databaseCluster stackName props) =
        some (if (databaseCluster stackName props).dbInstance.isSome
              then ProxyTarget.dbInst else ProxyTarget.cluster)) := by
  cases hs : (props.singleInstanceOnly == some true) <;>
    cases he : (tsNot props.rdsProxy == false) <;>
      simp [databaseCluster, proxyTarget, hs, he]

/-- C2 witness: at a cluster-topology configuration with the proxy enabled,
the proxy is attached to the cluster. -/
theorem c2_witness :
    proxyTarget (databaseCluster "stack" pc2) =
      some (if (databaseCluster "stack" pc2).dbInstance.isSome
            then ProxyTarget.dbInst else ProxyTarget.cluster) :=
  (c2_exactly_one_topology "stack" pc2).2.2 rfl

/-- C3 counterexample: in the single-instance topology with the proxy
enabled, a proxy is created but its declared dependency list is empty — the
source pushes onto `_runBefore` only in the cluster branch, so the proxy
declares no creation-order dependency on the standalone database instance,
refuting the claim for the single-instance topology. -/
theorem c3_counterexample :
    (databaseCluster "stack" pc3single).dbInstance.isSome = true ∧
    proxyDependencies (databaseCluster "stack" pc3single) = some [] :=
  ⟨rfl, rfl⟩

/-- C3 (amended): whenever a proxy is created, its declared dependencies are
exactly the `_runBefore` list recorded during construction; in the cluster
topology that list is exactly the recorded cluster-member database object
(so the proxy is never created before it), while in the single-instance
topology nothing was recorded and the proxy declares no creation-order
dependency. -/
theorem c3_proxy_dependencies (stackName : String) (props : DatabaseProps)
    (h : (databaseCluster stackName props).rdsProxy.isSome = true) :
    proxyDependencies (databaseCluster stackName props) =
      some (databaseCluster stackName props).runBefore ∧
    ((databaseCluster stackName props).dbCluster.isSome = true →
      (databaseCluster stackName props).runBefore =
        [Dependable.clusterMemberInstance]) ∧
    ((databaseCluster stackName props).dbInstance.isSome = true →
      (databaseCluster stackName props).runBefore = []) := by
  cases hs : (props.singleInstanceOnly == some true) <;>
    cases he : (tsNot props.rdsProxy == false) <;>
      simp_all [databaseCluster, proxyDependencies, hs, he]

/-- C3 witness: at a cluster-topology configuration with the proxy enabled,
the proxy's declared dependencies are exactly the recorded cluster-member
instance. -/
theorem c3_witness :
    proxyDependencies (databaseCluster "stack" pc3cluster) =
      some (databaseCluster "stack" pc3cluster).runBefore ∧
    (databaseCluster "stack" pc3cluster).runBefore =
      [Dependable.clusterMemberInstance] :=
  ⟨(c3_proxy_dependencies "stack" pc3cluster rfl).1,
   (c3_proxy_dependencies "stack" pc3cluster rfl).2.1 rfl⟩

/-- ASCII punctuation (the four blocks around the alphanumeric ranges). -/
def isPunctuationChar (c : Char) : Bool :=
  (33 ≤ c.toNat && c.toNat ≤ 47) || (58 ≤ c.toNat && c.toNat ≤ 64) ||
  (91 ≤ c.toNat && c.toNat ≤ 96) || (123 ≤ c.toNat && c.toNat ≤ 126)

/-- No character of the string is a punctuation character. -/
def noPunctuation (pw : String) : Bool :=
  pw.data.all (fun c => !isPunctuationChar c)

/-- No character of the string is a space. -/
def noSpace (pw : String) : Bool :=
  pw.data.all (fun c => !(c == ' '))

/-- Modelled from the spec: the password itself is generated by the external
credential store, which is not part of this repository; per the spec the
store honours the `generateSecretString` configuration, producing a password
of exactly `passwordLength` characters, without punctuation characters when
`excludePunctuation` is set, and without space characters when
`includeSpace` is false. -/
def conformsToGenerateConfig (cfg : GenerateSecretStringConfig)
    (pw : String) : Prop :=
  pw.length = cfg.passwordLength ∧
  (cfg.excludePunctuation = true → noPunctuation pw = true) ∧
  (cfg.includeSpace = false → noSpace pw = true)

/-- C4: for every configuration, the master-credential secret is declared
with `passwordLength 12`, `excludePunctuation` and no spaces, so any
password conforming to that generation configuration has at most 12
characters, no punctuation and no space characters. -/
theorem c4_password_shape (stackName : String) (props : DatabaseProps)
    (pw : String)
    (h : conformsToGenerateConfig
      (databaseCluster stackName props).masterPassword.generate pw) :
    pw.length ≤ 12 ∧ noPunctuation pw = true ∧ noSpace pw = true := by
  obtain ⟨h1, h2, h3⟩ := h
  have h12 : (databaseCluster stackName props).masterPassword.generate.passwordLength
      = 12 := rfl
  exact ⟨by omega, h2 rfl, h3 rfl⟩

/-- C4 witness: a concrete 12-character alphanumeric password conforming to
the declared generation configuration satisfies the bound and exclusions. -/
theorem c4_witness :
    "zXCvbn123456".length ≤ 12 ∧ noPunctuation "zXCvbn123456" = true ∧
    noSpace "zXCvbn123456" = true :=
  c4_password_shape "stack" pc4 "zXCvbn123456"
    ⟨rfl, fun _ => rfl, fun _ => rfl⟩

/-- C5: when the construct creates its own function, a database
configuration carrying only a writer endpoint makes `DB_READER` fall back to
the writer endpoint, and with no database configuration at all the function
gets `DB_WRITER = ""`, `DB_READER = ""` and `DB_USER = "admin"`. -/
theorem c5_env_fallbacks (props : ServerlessApiProps) (dbc : DatabaseConfig)
    (h : props.handler = none) :
    (props.databaseConfig = some dbc → dbc.readerEndpoint = none →
      functionDBReader (serverlessApi props) = some dbc.writerEndpoint) ∧
    (props.databaseConfig = none →
      functionDBWriter (serverlessApi props) = some "" ∧
      functionDBReader (serverlessApi props) = some "" ∧
      functionDBUser (serverlessApi props) = some "admin") := by
  constructor
  · intro hdb hr
    simp [serverlessApi, functionDBReader, h, hdb, hr]
  · intro hdb
    simp [serverlessApi, functionDBWriter, functionDBReader, functionDBUser,
      h, hdb, DEFAULT_DB_MASTER_USER]

/-- C5 witness: concrete evaluations of both branches — reader falls back to
the writer endpoint, and the no-database defaults are empty strings with
user `admin`. -/
theorem c5_witness :
    functionDBReader (serverlessApi pc5a) = some dbc5.writerEndpoint ∧
    (functionDBWriter (serverlessApi pc5b) = some "" ∧
     functionDBReader (serverlessApi pc5b) = some "" ∧
     functionDBUser (serverlessApi pc5b) = some "admin") :=
  ⟨(c5_env_fallbacks pc5a dbc5 rfl).1 rfl rfl,
   (c5_env_fallbacks pc5b dbc5 rfl).2 rfl⟩

/-- C6: whenever a proxy is created, the accompanying IAM role is trusted
only by the `rds.amazonaws.com` service principal and carries exactly one
policy statement with exactly the four secret-read actions, scoped to the
single generated master-credential secret's identifier — which is never the
wildcard `*`. -/
theorem c6_proxy_role_least_privilege (stackName : String)
    (props : DatabaseProps)
    (h : (databaseCluster stackName props).rdsProxy.isSome = true) :
    (databaseCluster stackName props).rdsProxyRole =
      some { assumedByServicePrincipal := "rds.amazonaws.com"
             policy :=
               [{ actions :=
                    [ "secretsmanager:GetResourcePolicy"
                    , "secretsmanager:GetSecretValue"
                    , "secretsmanager:DescribeSecret"
                    , "secretsmanager:ListSecretVersionIds" ]
                  resources :=
                    [(databaseCluster stackName props).masterPassword.secretArn] }] } ∧
    (databaseCluster stackName props).masterPassword.secretArn ≠ "*" := by
  constructor
  · cases he : (tsNot props.rdsProxy == false)
    · exfalso
      cases hs : (props.singleInstanceOnly == some true) <;>
        simp_all [databaseCluster, hs, he]
    · simp [databaseCluster, he]
  · intro hEq
    have harn : (databaseCluster stackName props).masterPassword.secretArn =
        "arn:secretsmanager:" ++ stackName ++ "-DbMasterSecret" := rfl
    have hl := congrArg String.length (harn.symm.trans hEq)
    rw [String.length_append, String.length_append] at hl
    have h19 : "arn:secretsmanager:".length = 19 := rfl
    have h15 : "-DbMasterSecret".length = 15 := rfl
    have h1 : "*".length = 1 := rfl
    omega

/-- C6 witness: concrete evaluation with the proxy enabled. -/
theorem c6_witness :
    (databaseCluster "stack" pc6).rdsProxyRole =
      some { assumedByServicePrincipal := "rds.amazonaws.com"
             policy :=
               [{ actions :=
                    [ "secretsmanager:GetResourcePolicy"
                    , "secretsmanager:GetSecretValue"
                    , "secretsmanager:DescribeSecret"
                    , "secretsmanager:ListSecretVersionIds" ]
                  resources :=
                    [(databaseCluster "stack" pc6).masterPassword.secretArn] }] } ∧
    (databaseCluster "stack" pc6).masterPassword.secretArn ≠ "*" :=
  c6_proxy_role_least_privilege "stack" pc6 rfl

/-- Definition following the spec's words, for the refinement claim C7: the
`ServerlessApi` props obtained from `ServerlessLaravel` props by renaming
`laravelPath` to `lambdaCodePath` and passing every other option —
`brefLayerVersion`, `handler`, `vpc`, `databaseConfig`, `rdsProxy` — through
unchanged. -/
def laravelAsApiProps (props : ServerlessLaravelProps) : ServerlessApiProps :=
  { handler := props.handler
    lambdaCodePath := some props.laravelPath
    brefLayerVersion := props.brefLayerVersion
    vpc := props.vpc
    databaseConfig := props.databaseConfig
    rdsProxy := props.rdsProxy }

/-- C7: for every configuration, `ServerlessLaravel` produces exactly the
resource description of `ServerlessApi` run on the props with
`lambdaCodePath` set to `laravelPath` and everything else forwarded
unchanged. -/
theorem c7_laravel_is_renamed_api (props : ServerlessLaravelProps) :
    serverlessLaravel props = serverlessApi (laravelAsApiProps props) := rfl

/-- C8: the claim says an omitted `instanceType` yields the default
`db.t3.medium` in both branches.  The cluster branch applies
`props.instanceType ?? new InstanceType('t3.medium')`, but the
single-instance branch passes `props.instanceType` through with no local
default, contradicting the prop's own `@default t3.medium` documentation.
This theorem evaluates both branches at the failing input (sizing
omitted). -/
theorem c8_single_instance_missing_default :
    dbInstanceSizing (databaseCluster "stack" pc8single) = some none ∧
    dbClusterSizing (databaseCluster "stack" pc8cluster) =
      some { name := "t3.medium" } :=
  ⟨rfl, rfl⟩

/-- C9: with a caller-supplied handler the construct creates no function of
its own, `lambdaCodePath` / `brefLayerVersion` / `databaseConfig` have no
effect on the produced resources, and the `rds-db:connect` grant is still
added to the supplied handler's role when an `rdsProxy` reference is
given. -/
theorem c9_custom_handler_frame (p₁ p₂ : ServerlessApiProps) (f : IFunction)
    (h₁ : p₁.handler = some f) (h₂ : p₂.handler = some f)
    (hv : p₁.vpc = p₂.vpc) (hr : p₁.rdsProxy = p₂.rdsProxy) :
    serverlessApi p₁ = serverlessApi p₂ ∧
    (serverlessApi p₁).createdFunction = none ∧
    (serverlessApi p₁).handler = f ∧
    (p₁.rdsProxy = none → (serverlessApi p₁).handlerRolePolicy = []) ∧
    (∀ proxy : IDatabaseProxy, p₁.rdsProxy = some proxy →
      (serverlessApi p₁).handlerRolePolicy =
        [{ actions := ["rds-db:connect"]
           resources := [proxy.dbProxyArn] }]) := by
  refine ⟨?_, ?_, ?_, ?_, ?_⟩
  · simp [serverlessApi, h₁, h₂, hv, hr]
  · simp [serverlessApi, h₁]
  · simp [serverlessApi, h₁]
  · intro hnone
    simp [serverlessApi, hnone]
  · intro proxy hsome
    simp [serverlessApi, hsome]

/-- C9 witness: two concrete configurations sharing the same supplied
handler, VPC and proxy reference but different code path, layer version and
database configuration produce identical resources, no created function,
and the connect grant. -/
theorem c9_witness :
    serverlessApi p9a = serverlessApi p9b ∧
    (serverlessApi p9a).createdFunction = none ∧
    (serverlessApi p9a).handler = f9 ∧
    (serverlessApi p9a).handlerRolePolicy =
      [{ actions := ["rds-db:connect"], resources := [proxy9.dbProxyArn] }] := by
  have h := c9_custom_handler_frame p9a p9b f9 rfl rfl rfl rfl
  exact ⟨h.1, h.2.1, h.2.2.1, h.2.2.2.2 proxy9 rfl⟩

/-- C10: two configurations that differ only in the (never read)
`databaseConfig.masterUserPasswordSecret` field produce identical resource
descriptions. -/
theorem c10_password_secret_never_read (p : ServerlessApiProps)
    (dbc : DatabaseConfig) (s₁ s₂ : Option ISecret) :
    serverlessApi
      { p with databaseConfig := some { dbc with masterUserPasswordSecret := s₁ } } =
    serverlessApi
      { p with databaseConfig := some { dbc with masterUserPasswordSecret := s₂ } } := by
  rcases p with ⟨h, lcp, blv, v, dbcfg, rp⟩
  cases h <;> rfl
